import Mathlib

/-!
Shallow embedding of the Auto-Arcana-Wars combat engine
(`src/utils.py`, `src/items.py`, `src/characters.py`, `src/backend.py`).
Python floats are modelled as rationals; Python's mutable objects are
modelled by explicit state passing.  The injected RNG is modelled as an
arbitrary function from (call index, probability) to a Bool outcome,
covering every behaviour of the injected source.
-/

namespace AutoArcana

/-- The `Stats` NamedTuple from `utils.py`: seven numeric fields, all
defaulting to 0. -/
structure Stats where
  current_hp : ℚ := 0
  total_hp : ℚ := 0
  armor : ℚ := 0
  magic_resistance : ℚ := 0
  physical_power : ℚ := 0
  magic_power : ℚ := 0
  special_trigger_chance : ℚ := 0
deriving DecidableEq, Repr

/-- Python's `max` on two rationals, written with `if` so that it
evaluates by kernel reduction (it equals `max`, see `pymax_eq`). -/
def pymax (a b : ℚ) : ℚ := if a ≤ b then b else a

/-- Python's `min` on two rationals, written with `if` so that it
evaluates by kernel reduction (it equals `min`, see `pymin_eq`). -/
def pymin (a b : ℚ) : ℚ := if a ≤ b then a else b

/-- Python's `abs` on a rational, written with `if` so that it
evaluates by kernel reduction (it equals `|·|`, see `pyabs_eq`). -/
def pyabs (a : ℚ) : ℚ := if a < 0 then -a else a

/-- Clamp `x` into the interval `[lo, hi]`. -/
def clamp (lo hi x : ℚ) : ℚ := min hi (max lo x)

/-- `Stats.add_stat_changes` from `utils.py` (lines 48-77).  The source
iterates over the seven fields in a fixed order, computing
`min(max_val, max(min_val, self.field + changes.field))`; `total_hp` is
computed before `current_hp`, and `current_hp`'s upper bound is the
just-computed new `total_hp`.  Fields whose source bound is `math.inf`
have no upper clamp (`min(inf, x) = x`). -/
def Stats.add_stat_changes (s changes : Stats) : Stats :=
  let new_total_hp := pymax 0 (s.total_hp + changes.total_hp)
  let new_current_hp := pymin new_total_hp (pymax 0 (s.current_hp + changes.current_hp))
  let new_armor := pymax 0 (s.armor + changes.armor)
  let new_magic_resistance := pymax 0 (s.magic_resistance + changes.magic_resistance)
  let new_physical_power := pymax 0 (s.physical_power + changes.physical_power)
  let new_magic_power := pymax 0 (s.magic_power + changes.magic_power)
  let new_special := pymin 100 (pymax 0 (s.special_trigger_chance + changes.special_trigger_chance))
  { current_hp := new_current_hp
    total_hp := new_total_hp
    armor := new_armor
    magic_resistance := new_magic_resistance
    physical_power := new_physical_power
    magic_power := new_magic_power
    special_trigger_chance := new_special }

/-- A `Stats` value whose fields satisfy the documented ranges: every
field non-negative, `special_trigger_chance ≤ 100`, and
`current_hp ≤ total_hp`. -/
def Stats.Normalized (s : Stats) : Prop :=
  0 ≤ s.current_hp ∧ s.current_hp ≤ s.total_hp ∧
  0 ≤ s.armor ∧ 0 ≤ s.magic_resistance ∧
  0 ≤ s.physical_power ∧ 0 ≤ s.magic_power ∧
  0 ≤ s.special_trigger_chance ∧ s.special_trigger_chance ≤ 100

instance (s : Stats) : Decidable s.Normalized := by
  unfold Stats.Normalized; infer_instance

/-- The `Damage` NamedTuple from `utils.py`. -/
structure Damage where
  physical : ℚ := 0
  magic : ℚ := 0
deriving DecidableEq, Repr

/-- The `Attack` NamedTuple from `utils.py`: damage and
`stat_updates_to_self` both default to `None` (narration strings are not
modelled — no claim depends on them). -/
structure Attack where
  damage : Option Damage := none
  stat_updates_to_self : Option Stats := none
deriving DecidableEq, Repr

/-- The `DamageStats` dataclass from `utils.py` (lines 124-144). -/
structure DamageStats where
  damage_dealt : ℚ := 0
  damage_taken : ℚ := 0
  damage_mitigated : ℚ := 0
  kills : ℕ := 0
deriving DecidableEq, Repr

/-- The five concrete item classes of `items.py`. -/
inductive ItemKind
  | enchantedSword
  | shinyStaff
  | magicCauldron
  | pole
  | solidRock
deriving DecidableEq, Repr

/-- The `name` property of each item class in `items.py`. -/
def ItemKind.name : ItemKind → String
  | .enchantedSword => "Enchanted Sword"
  | .shinyStaff => "Shiny Staff"
  | .magicCauldron => "A magic cauldron"
  | .pole => "A Pole"
  | .solidRock => "A solid rock"

/-- The `passive_name` property of each item class in `items.py`. -/
def ItemKind.passive_name : ItemKind → String
  | .enchantedSword =>
      "Unique Passive: Lucky strike. Adds 5%(+25% of base Special Trigger Chance) to Special Trigger chance."
  | .shinyStaff =>
      "Passive: Blessings of Echo. Adds 1(+50% of base Magic Power) to Magic Power."
  | .magicCauldron =>
      "Unique Passive: Potion of life. Adds 10(+30% of base HP) to HP"
  | .pole => ""
  | .solidRock => ""

/-- An item instance: its class plus the mutable per-instance state of
`BaseItem` in `utils.py` (`base_item_stats`, `is_passive_active`). -/
structure Item where
  kind : ItemKind
  base_item_stats : Stats
  is_passive_active : Bool := true
deriving DecidableEq, Repr

/-- The `name` of an item instance. -/
def Item.name (it : Item) : String := it.kind.name

/-- The `passive_name` of an item instance. -/
def Item.passive_name (it : Item) : String := it.kind.passive_name

/-- Contiguous-sublist test: `charsContain needle haystack` is true iff
`needle` occurs as a contiguous run inside `haystack`. -/
def charsContain (needle : List Char) : (haystack : List Char) → Bool
  | [] => needle.isEmpty
  | c :: rest => needle.isPrefixOf (c :: rest) || charsContain needle rest

/-- Python's substring test `needle in haystack`, on the character
lists of the two strings. -/
def strContains (haystack needle : String) : Bool :=
  charsContain needle.toList haystack.toList

/-- The test `"Unique Passive" in item.passive_name` from
`BaseCharacter.add_item` in `utils.py` (line 320). -/
def Item.has_unique_passive (it : Item) : Bool :=
  strContains it.passive_name "Unique Passive"

/-- `BaseItem.__eq__` from `utils.py` (lines 215-231): two items are
equal iff their `name` properties coincide (the `isinstance` guard is
vacuous in the typed model, where both sides are items). -/
def itemEq (a b : Item) : Bool := a.name == b.name

/-- `calculate_effective_stats` of each concrete item class in
`items.py`, a function of the character's base stats and the item's
own `base_item_stats` and `is_passive_active` flag. -/
def Item.calculate_effective_stats (it : Item) (character_stats : Stats) : Stats :=
  match it.kind with
  | .enchantedSword =>
      let passive_special_chance : ℚ :=
        if it.is_passive_active then 5 + (1/4) * character_stats.special_trigger_chance else 0
      it.base_item_stats.add_stat_changes { special_trigger_chance := passive_special_chance }
  | .shinyStaff =>
      let added_magic_power : ℚ := 1 + (1/2) * character_stats.magic_power
      it.base_item_stats.add_stat_changes { magic_power := added_magic_power }
  | .magicCauldron =>
      let passive_hp : ℚ :=
        if it.is_passive_active then 10 + (3/10) * character_stats.total_hp else 0
      it.base_item_stats.add_stat_changes { current_hp := passive_hp, total_hp := passive_hp }
  | .pole => it.base_item_stats
  | .solidRock => it.base_item_stats

/-- The three concrete character classes of `characters.py`. -/
inductive CharKind
  | ninja
  | mage
  | warrior
deriving DecidableEq, Repr

/-- A character instance: its class plus the mutable state of
`BaseCharacter` in `utils.py` (lines 269-281). -/
structure Character where
  kind : CharKind
  base_stats : Stats
  added_item_stats : Stats := {}
  effective_stats : Stats
  items : List Item := []
  damage_stats : DamageStats := {}
deriving DecidableEq, Repr

/-- Construct a character as `BaseCharacter.__init__` does:
`effective_stats` starts equal to `base_stats`, no items, zeroed
damage stats. -/
def Character.mk0 (kind : CharKind) (base_stats : Stats) : Character :=
  { kind := kind, base_stats := base_stats, effective_stats := base_stats }

/-- The number of items a character may hold (`N_ITEMS` in `utils.py`). -/
def N_ITEMS : ℕ := 3

/-- Errors raised with `raise ValueError` (or crashes) in the source.
`unpackMismatch` is the `ValueError: too many values to unpack` raised
by a two-name sequence unpacking of a three-element value. -/
inductive GameError
  | tooManyItems
  | deadCharacter
  | invalidAttack
  | unpackMismatch
deriving DecidableEq, Repr

/-- `BaseCharacter.add_item` from `utils.py` (lines 299-327): reject a
4th item; if the item has a unique passive and an equal (same-name)
item is already held, deactivate the passive on the incoming copy;
append it and fold its effective stats into `added_item_stats` and
`effective_stats`. -/
def Character.add_item (c : Character) (item : Item) : Except GameError Character :=
  if c.items.length = N_ITEMS then
    .error .tooManyItems
  else
    let item :=
      if item.has_unique_passive && c.items.any (fun held => itemEq item held) then
        { item with is_passive_active := false }
      else item
    let added_item_stats :=
      c.added_item_stats.add_stat_changes (item.calculate_effective_stats c.base_stats)
    .ok { c with
          items := c.items ++ [item]
          added_item_stats := added_item_stats
          effective_stats := c.base_stats.add_stat_changes added_item_stats }

/-- `BaseCharacter.basic_attack` from `utils.py` (lines 353-369): pure
physical damage equal to the character's effective `physical_power`. -/
def Character.basic_attack (c : Character) : Attack :=
  { damage := some { physical := c.effective_stats.physical_power } }

/-- The `special_attack` property of each concrete class in
`characters.py`: Ninja deals physical damage, Mage deals magic damage,
Warrior issues a self-heal (`stat_updates_to_self`). -/
def Character.special_attack (c : Character) : Attack :=
  match c.kind with
  | .ninja =>
      { damage := some { physical :=
          40 + (1/2) * c.effective_stats.physical_power
             + (1/2) * c.effective_stats.magic_power } }
  | .mage =>
      { damage := some { magic := 1 + (5/4) * c.effective_stats.magic_power } }
  | .warrior =>
      { stat_updates_to_self := some { current_hp :=
          50 + (3/4) * c.effective_stats.physical_power
             + 3 * c.effective_stats.magic_power } }

/-- `calculate_damage_taken` from `backend.py` (lines 26-44): HP lost is
each damage component reduced by the matching resistance percentage; the
result is a `Stats` delta whose `current_hp` is the negated loss. -/
def calculate_damage_taken (damage : Damage) (character_stats : Stats) : Stats :=
  let hp_lost :=
    (damage.physical - damage.physical * character_stats.armor / 100)
    + (damage.magic - damage.magic * character_stats.magic_resistance / 100)
  { current_hp := -hp_lost }

/-- `calculate_miss_chance` from `backend.py` (lines 47-67): the magic
branch is taken only when `damage.magic > damage.physical`. -/
def calculate_miss_chance (damage : Damage) (character_stats : Stats) : ℚ :=
  if damage.physical < damage.magic then
    character_stats.magic_resistance / 10
  else
    character_stats.armor / 10

/-- The injected RNG source (`RngEngine` in `utils.py`), modelled as an
arbitrary function `draw` from (call index, probability) to the Bool
outcome of that roll, plus the index of the next call.  Quantifying over
`draw` covers every behaviour of the injected source. -/
structure RngEngine where
  draw : ℕ → ℚ → Bool
  k : ℕ := 0

/-- One call `rng_engine.rng(probability)`: the outcome of the current
roll, and the engine advanced to the next call. -/
def RngEngine.rng (e : RngEngine) (probability : ℚ) : Bool × RngEngine :=
  (e.draw e.k probability, { e with k := e.k + 1 })

/-- A deterministic RNG source all of whose rolls fail (forcing basic
attacks and hits, since both the special roll and the miss roll come
out false). -/
def allFalseRng (k : ℕ := 0) : RngEngine :=
  { draw := fun _ _ => false, k := k }

/-- Result of one turn: the two (possibly updated) characters in their
original `your`/`opponent` roles, and the advanced RNG engine. -/
structure TurnResult where
  your : Character
  opponent : Character
  rng : RngEngine

/-- The `attacking_char` selection in `play_turn` (line 93). -/
def attacker_of (your_character opponent_character : Character) (is_your_turn : Bool) : Character :=
  if is_your_turn then your_character else opponent_character

/-- The `defending_char` selection in `play_turn` (line 95). -/
def defender_of (your_character opponent_character : Character) (is_your_turn : Bool) : Character :=
  if is_your_turn then opponent_character else your_character

/-- The attack chosen in `play_turn` (lines 99-101): the special attack
when the special roll succeeded, the basic attack otherwise. -/
def chosen_attack (c : Character) (is_attack_special : Bool) : Attack :=
  if is_attack_special then c.special_attack else c.basic_attack

/-- The character who attacked this turn, read back from a `TurnResult`. -/
def TurnResult.attacking (tr : TurnResult) (is_your_turn : Bool) : Character :=
  if is_your_turn then tr.your else tr.opponent

/-- The character who defended this turn, read back from a `TurnResult`. -/
def TurnResult.defending (tr : TurnResult) (is_your_turn : Bool) : Character :=
  if is_your_turn then tr.opponent else tr.your

/-- The self-effect branch of `play_turn` (lines 103-106): merge the
attack's stat updates into the attacker's effective stats. -/
def self_updated (attacking_char : Character) (upd : Stats) : Character :=
  { attacking_char with
    effective_stats := attacking_char.effective_stats.add_stat_changes upd }

/-- The defender's update in the hit branch of `play_turn` (lines
115-124): merge the damage-taken delta into the effective stats, add the
raw total damage to `damage_taken`, and add raw total minus the
absolute pre-clamp HP delta to `damage_mitigated`. -/
def hit_defender (defending_char : Character) (dmg : Damage) : Character :=
  let hp_update := calculate_damage_taken dmg defending_char.effective_stats
  let total_damage := dmg.physical + dmg.magic
  { defending_char with
    effective_stats := defending_char.effective_stats.add_stat_changes hp_update
    damage_stats :=
      { defending_char.damage_stats with
        damage_taken := defending_char.damage_stats.damage_taken + total_damage
        damage_mitigated := defending_char.damage_stats.damage_mitigated
          + (total_damage - pyabs hp_update.current_hp) } }

/-- The attacker's update in the hit branch of `play_turn` (lines
121-128): add the raw total damage to `damage_dealt`, and increment
`kills` exactly when the defender's new `current_hp` equals 0. -/
def hit_attacker (attacking_char defending_char : Character) (dmg : Damage) : Character :=
  let total_damage := dmg.physical + dmg.magic
  let attacking1 :=
    { attacking_char with
      damage_stats :=
        { attacking_char.damage_stats with
          damage_dealt := attacking_char.damage_stats.damage_dealt + total_damage } }
  if (hit_defender defending_char dmg).effective_stats.current_hp = 0 then
    { attacking1 with
      damage_stats :=
        { attacking1.damage_stats with kills := attacking1.damage_stats.kills + 1 } }
  else attacking1

/-- Reassemble the attacker/defender pair back into `your`/`opponent`
order after a turn. -/
def packTurn (is_your_turn : Bool) (attacking defending : Character)
    (rng : RngEngine) : TurnResult :=
  if is_your_turn then
    { your := attacking, opponent := defending, rng := rng }
  else
    { your := defending, opponent := attacking, rng := rng }

/-- `play_turn` from `backend.py` (lines 70-130).  Raises (models
`ValueError`) if either character is already dead; rolls the special
chance to choose the attack; a self-effect attack merges into the
attacker's stats; otherwise rolls the miss chance and, on a hit, merges
the damage into the defender and updates both characters' damage
statistics exactly as the source does. -/
def play_turn (your_character opponent_character : Character)
    (is_your_turn : Bool) (rng_engine : RngEngine) : Except GameError TurnResult :=
  if your_character.effective_stats.current_hp ≤ 0 ∨
      opponent_character.effective_stats.current_hp ≤ 0 then
    .error .deadCharacter
  else
    let attacking_char := attacker_of your_character opponent_character is_your_turn
    let defending_char := defender_of your_character opponent_character is_your_turn
    let special_chance := attacking_char.effective_stats.special_trigger_chance
    let (is_attack_special, rng1) := rng_engine.rng special_chance
    let attack := chosen_attack attacking_char is_attack_special
    match attack.stat_updates_to_self with
    | some upd =>
        .ok (packTurn is_your_turn (self_updated attacking_char upd) defending_char rng1)
    | none =>
        match attack.damage with
        | none => .error .invalidAttack
        | some dmg =>
            let miss_chance := calculate_miss_chance dmg defending_char.effective_stats
            let (is_damage_missed, rng2) := rng1.rng miss_chance
            if is_damage_missed then
              .ok (packTurn is_your_turn attacking_char defending_char rng2)
            else
              .ok (packTurn is_your_turn
                (hit_attacker attacking_char defending_char dmg)
                (hit_defender defending_char dmg) rng2)

/-- The loop state of `play_round` in `backend.py` (lines 150-183): the
two team lists, the two front indices, whose turn it is, and the RNG
engine. -/
structure RoundState where
  your_team : List Character
  opponent_team : List Character
  your_char_idx : ℕ := 0
  opponent_char_idx : ℕ := 0
  is_your_turn : Bool
  rng : RngEngine

/-- The `while` loop of `play_round` (lines 160-185), with explicit
fuel: `ok none` means the fuel ran out with the loop still running;
`ok (some (won, s))` means the loop exited and the round returned
`your_char_idx < opponent_char_idx` as the win flag. -/
def play_round_go : (fuel : ℕ) → RoundState → Except GameError (Option (Bool × RoundState))
  | 0, _ => .ok none
  | fuel + 1, s =>
    if h : s.your_char_idx < s.your_team.length ∧
        s.opponent_char_idx < s.opponent_team.length then
      let your_character := s.your_team.get ⟨s.your_char_idx, h.1⟩
      let opponent_character := s.opponent_team.get ⟨s.opponent_char_idx, h.2⟩
      match play_turn your_character opponent_character s.is_your_turn s.rng with
      | .error e => .error e
      | .ok tr =>
          let your_team := s.your_team.set s.your_char_idx tr.your
          let opponent_team := s.opponent_team.set s.opponent_char_idx tr.opponent
          let your_char_idx :=
            if tr.your.effective_stats.current_hp ≤ 0 then s.your_char_idx + 1
            else s.your_char_idx
          let opponent_char_idx :=
            if tr.opponent.effective_stats.current_hp ≤ 0 then s.opponent_char_idx + 1
            else s.opponent_char_idx
          play_round_go fuel
            { your_team := your_team
              opponent_team := opponent_team
              your_char_idx := your_char_idx
              opponent_char_idx := opponent_char_idx
              is_your_turn := !s.is_your_turn
              rng := tr.rng }
    else
      .ok (some (decide (s.your_char_idx < s.opponent_char_idx), s))

/-- `play_round` from `backend.py` on already-loaded teams (reading the
assignment files is external I/O outside the modelled core): run the
turn loop from fresh indices with the given first mover. -/
def play_round (your_team opponent_team : List Character)
    (is_your_turn_first : Bool) (rng : RngEngine) (fuel : ℕ) :
    Except GameError (Option (Bool × RoundState)) :=
  play_round_go fuel
    { your_team := your_team
      opponent_team := opponent_team
      is_your_turn := is_your_turn_first
      rng := rng }

/-- A round between two one-character teams with the given stats, the
initiating side moving first, under the all-false RNG. -/
def round1v1 (a b : Stats) (fuel : ℕ) : Except GameError (Option (Bool × RoundState)) :=
  play_round [Character.mk0 .ninja a] [Character.mk0 .ninja b] true (allFalseRng 0) fuel

/-- Divergence of the round loop: no amount of fuel makes the `while`
loop of `play_round` exit from this state. -/
def roundDiverges (s : RoundState) : Prop :=
  ∀ fuel : ℕ, play_round_go fuel s = .ok none

/-- `N_ROUNDS` from `backend.py`. -/
def N_ROUNDS : ℕ := 5

/-- `N_WINS` from `backend.py`. -/
def N_WINS : ℕ := 3

/-- The value `play_round` returns (`backend.py` line 185): a 3-tuple
of the win flag `your_char_idx < opponent_char_idx`, the narration
log, and the two final team lists. -/
def RoundReturn : Type :=
  Bool × List String × (List Character × List Character)

/-- Python's two-name sequence unpacking `a, b = t` applied to a value
with three components: the arity check fails whatever the components
are, raising `ValueError: too many values to unpack`. -/
def unpack2of3 {α β γ : Type} (_t : α × β × γ) : Except GameError (α × β) :=
  .error .unpackMismatch

/-- The `for round in range(1, N_ROUNDS + 1)` loop of `play_match`
(`backend.py` lines 207-232), over an abstract per-round resolver
`round_results` standing for `play_round` applied to that round's
assignment files (file loading is external I/O); the resolver yields
`play_round`'s full 3-tuple plus the threaded RNG engine.  Line 209
binds that 3-tuple to the two names `is_round_your_win,
round_description`, which raises `ValueError`; the tallying and
early-stop code below it (lines 218-232) is mirrored in the `.ok` arm
but is unreachable, exactly as in the source. -/
def match_loop (round_results : ℕ → Bool → RngEngine → RoundReturn × RngEngine) :
    (rounds_left : ℕ) → (round : ℕ) → (is_your_turn_first : Bool) →
    (your_wins opponent_wins : ℕ) → RngEngine →
    Except GameError (ℕ × ℕ × RngEngine)
  | 0, _, _, your_wins, opponent_wins, rng => .ok (your_wins, opponent_wins, rng)
  | rounds_left + 1, round, is_your_turn_first, your_wins, opponent_wins, rng =>
      let (output, rng1) := round_results round is_your_turn_first rng
      match unpack2of3 output with
      | .error e => .error e
      | .ok (is_round_your_win, _) =>
          let your_wins1 := if is_round_your_win then your_wins + 1 else your_wins
          let opponent_wins1 :=
            if is_round_your_win then opponent_wins else opponent_wins + 1
          if your_wins1 = N_WINS ∨ opponent_wins1 = N_WINS then
            .ok (your_wins1, opponent_wins1, rng1)
          else
            match_loop round_results rounds_left (round + 1) (!is_your_turn_first)
              your_wins1 opponent_wins1 rng1

/-- `play_match` from `backend.py` (lines 188-234): roll the initial
first mover at probability 50 and run the round loop; the `ValueError`
from the first round's unpacking propagates, so the final
`your_wins > opponent_wins` comparison on line 234 is never reached. -/
def play_match (round_results : ℕ → Bool → RngEngine → RoundReturn × RngEngine)
    (rng_engine : RngEngine) : Except GameError (Bool × ℕ × ℕ × RngEngine) :=
  let (is_your_turn_first, rng1) := rng_engine.rng 50
  match match_loop round_results N_ROUNDS 1 is_your_turn_first 0 0 rng1 with
  | .error e => .error e
  | .ok (your_wins, opponent_wins, rng2) =>
      .ok (decide (opponent_wins < your_wins), your_wins, opponent_wins, rng2)

/-- A fresh Ninja with the given current HP, total HP, physical power
and armor (all other stats zero), used for concrete scenarios. -/
def mkNinja (hp total pp armor : ℚ) : Character :=
  Character.mk0 .ninja
    { current_hp := hp, total_hp := total, armor := armor, physical_power := pp }

/-- The damage payload of a character's basic attack (`utils.py` line
366): pure physical damage equal to effective `physical_power`. -/
def basicDamage (c : Character) : Damage :=
  { physical := c.effective_stats.physical_power }

/-- The HP a basic attack of `attacking` removes from `defending`
before clamping, per `calculate_damage_taken`. -/
def lossAgainst (attacking defending : Character) : ℚ :=
  attacking.effective_stats.physical_power
    - attacking.effective_stats.physical_power * defending.effective_stats.armor / 100

/-- The round-loop state of a one-versus-one round under the all-false
RNG: fresh indices, the given first mover. -/
def st1v1 (a b : Character) (turn : Bool) (k : ℕ) : RoundState :=
  { your_team := [a], opponent_team := [b], is_your_turn := turn, rng := allFalseRng k }

/-- Divergence of `play_round` itself: no fuel suffices for the round's
`while` loop to exit on these inputs. -/
def play_round_diverges (your_team opponent_team : List Character)
    (is_your_turn_first : Bool) (rng : RngEngine) : Prop :=
  ∀ fuel : ℕ, play_round your_team opponent_team is_your_turn_first rng fuel = .ok none

/-- Outcome shape of a terminated one-versus-one round: the survivor's
side is flagged winner — either the opponent's single character is at 0
HP with the opponent's index exhausted and the flag true, or
symmetrically the flag is false. -/
def Round1v1Out (w : Bool) (s' : RoundState) : Prop :=
  ∃ x' y', s'.your_team = [x'] ∧ s'.opponent_team = [y'] ∧
    ((w = true ∧ s'.your_char_idx = 0 ∧ s'.opponent_char_idx = 1 ∧
      0 < x'.effective_stats.current_hp ∧ y'.effective_stats.current_hp = 0) ∨
     (w = false ∧ s'.your_char_idx = 1 ∧ s'.opponent_char_idx = 0 ∧
      0 < y'.effective_stats.current_hp ∧ x'.effective_stats.current_hp = 0))

/-- Mitigation stats within the percentage range `[0, 100]` in which
damage reduction cannot exceed the incoming damage. -/
def Stats.MitigationInRange (s : Stats) : Prop :=
  0 ≤ s.armor ∧ s.armor ≤ 100 ∧
  0 ≤ s.magic_resistance ∧ s.magic_resistance ≤ 100

instance (s : Stats) : Decidable s.MitigationInRange := by
  unfold Stats.MitigationInRange; infer_instance

/-- Non-negative attack powers, under which every attack of the three
character classes deals non-negative damage components. -/
def Stats.PowersNonneg (s : Stats) : Prop :=
  0 ≤ s.physical_power ∧ 0 ≤ s.magic_power

instance (s : Stats) : Decidable s.PowersNonneg := by
  unfold Stats.PowersNonneg; infer_instance

end AutoArcana

namespace AutoArcana

/-- Bridge: the executable `pymax` is `max`. -/
theorem pymax_eq (a b : ℚ) : pymax a b = max a b := by
  rw [pymax, max_def]

/-- Bridge: the executable `pymin` is `min`. -/
theorem pymin_eq (a b : ℚ) : pymin a b = min a b := by
  rw [pymin, min_def]

/-- Bridge: the executable `pyabs` is `|·|`. -/
theorem pyabs_eq (a : ℚ) : pyabs a = |a| := by
  by_cases h : a < 0
  · rw [pyabs, if_pos h, abs_of_neg h]
  · rw [pyabs, if_neg h, abs_of_nonneg (not_lt.mp h)]

/-- C1: `add_stat_changes` clamps every plain field into `[0, ∞)`,
`special_trigger_chance` into `[0, 100]`, and `current_hp` into
`[0, T]` where `T` is the result's own just-computed `total_hp`. -/
theorem C1_add_stat_changes_clamps (base changes : Stats) :
    let r := base.add_stat_changes changes
    r.total_hp = max 0 (base.total_hp + changes.total_hp) ∧
    r.armor = max 0 (base.armor + changes.armor) ∧
    r.magic_resistance = max 0 (base.magic_resistance + changes.magic_resistance) ∧
    r.physical_power = max 0 (base.physical_power + changes.physical_power) ∧
    r.magic_power = max 0 (base.magic_power + changes.magic_power) ∧
    r.special_trigger_chance =
      clamp 0 100 (base.special_trigger_chance + changes.special_trigger_chance) ∧
    r.current_hp = clamp 0 r.total_hp (base.current_hp + changes.current_hp) := by
  refine ⟨?_, ?_, ?_, ?_, ?_, ?_, ?_⟩ <;>
    simp [Stats.add_stat_changes, clamp, pymax_eq, pymin_eq]

/-- C7: `calculate_miss_chance` returns `magic_resistance / 10` exactly
when the action's magic damage strictly exceeds its physical damage and
`armor / 10` otherwise; a zero-damage action falls into the physical
branch and yields `armor / 10`, and the result is not clamped to
`[0, 100]` (armor 2000 yields 200). -/
theorem C7_calculate_miss_chance (damage : Damage) (character_stats : Stats) :
    calculate_miss_chance damage character_stats =
      (if damage.magic > damage.physical then character_stats.magic_resistance / 10
       else character_stats.armor / 10) ∧
    calculate_miss_chance { physical := 0, magic := 0 } character_stats =
      character_stats.armor / 10 ∧
    calculate_miss_chance { physical := 50, magic := 0 } { armor := 20 } = 2 ∧
    (100 : ℚ) < calculate_miss_chance { physical := 0, magic := 0 } { armor := 2000 } := by
  refine ⟨rfl, by norm_num [calculate_miss_chance], by norm_num [calculate_miss_chance],
    by norm_num [calculate_miss_chance]⟩

attribute [local semireducible] Rat.add Rat.mul Rat.sub Rat.inv in
/-- C8 counterexample: merging the all-zero delta is not the identity on
every `Stats` value — a value with `current_hp > total_hp` is re-capped
by the merge, so the claim fails at `current_hp = 5, total_hp = 3`. -/
theorem C8_counterexample :
    ({ current_hp := 5, total_hp := 3 } : Stats).add_stat_changes {} ≠
      ({ current_hp := 5, total_hp := 3 } : Stats) := by decide

/-- C8 amended: merging the all-zero `Stats` delta is the identity on
every `Stats` value already inside the documented ranges (all fields
non-negative, `current_hp ≤ total_hp`, `special_trigger_chance ≤ 100`). -/
theorem C8_zero_delta_identity (s : Stats) (h : s.Normalized) :
    s.add_stat_changes {} = s := by
  obtain ⟨c, t, a, m, p, g, sp⟩ := s
  obtain ⟨h1, h2, h3, h4, h5, h6, h7, h8⟩ := h
  simp only [Stats.add_stat_changes, pymax_eq, pymin_eq, add_zero, Stats.mk.injEq]
    at h1 h2 h3 h4 h5 h6 h7 h8 ⊢
  refine ⟨?_, ?_, ?_, ?_, ?_, ?_, ?_⟩
  · rw [max_eq_right (h1.trans h2), max_eq_right h1, min_eq_right h2]
  · exact max_eq_right (h1.trans h2)
  · exact max_eq_right h3
  · exact max_eq_right h4
  · exact max_eq_right h5
  · exact max_eq_right h6
  · rw [max_eq_right h7]; exact min_eq_right h8

/-- C8 witness: the amended identity applied at a concrete in-range
`Stats` value. -/
theorem C8_zero_delta_identity_witness :
    ({ current_hp := 3, total_hp := 10, armor := 1, magic_resistance := 2,
       physical_power := 4, magic_power := 5, special_trigger_chance := 6 } : Stats).Normalized ∧
    ({ current_hp := 3, total_hp := 10, armor := 1, magic_resistance := 2,
       physical_power := 4, magic_power := 5, special_trigger_chance := 6 } : Stats).add_stat_changes {} =
      { current_hp := 3, total_hp := 10, armor := 1, magic_resistance := 2,
        physical_power := 4, magic_power := 5, special_trigger_chance := 6 } :=
  ⟨by decide, C8_zero_delta_identity _ (by decide)⟩

/-- Shared helper: when the capacity check passes and the incoming item
has a unique passive already matched (by item equality) in the held
list, `add_item` succeeds and appends the copy with its passive
deactivated, folding the deactivated copy's effective stats in. -/
theorem add_item_dup_spec (c : Character) (item : Item)
    (hlen : c.items.length ≠ N_ITEMS)
    (hcond : (item.has_unique_passive && c.items.any (fun held => itemEq item held)) = true) :
    c.add_item item = .ok { c with
      items := c.items ++ [{ item with is_passive_active := false }]
      added_item_stats := c.added_item_stats.add_stat_changes
        (Item.calculate_effective_stats { item with is_passive_active := false } c.base_stats)
      effective_stats := c.base_stats.add_stat_changes
        (c.added_item_stats.add_stat_changes
          (Item.calculate_effective_stats { item with is_passive_active := false } c.base_stats)) } := by
  simp only [Character.add_item, if_neg hlen, hcond, if_true]

/-- C9: adding a second copy of a unique-passive item already held (and
below the 3-item cap) is accepted: the new copy is appended with its
passive deactivated, and every previously held item stays listed. -/
theorem C9_duplicate_unique_passive (c : Character) (item : Item)
    (hlen : c.items.length < N_ITEMS)
    (hu : item.has_unique_passive = true)
    (hdup : ∃ held ∈ c.items, itemEq item held = true) :
    ∃ c', c.add_item item = .ok c' ∧
      c'.items = c.items ++ [{ item with is_passive_active := false }] ∧
      ∀ held ∈ c.items, held ∈ c'.items := by
  have hany : c.items.any (fun held => itemEq item held) = true := by
    rw [List.any_eq_true]
    obtain ⟨j, hj, hje⟩ := hdup
    exact ⟨j, hj, hje⟩
  refine ⟨_, add_item_dup_spec c item (Nat.ne_of_lt hlen) (by rw [hu, hany]; rfl), rfl, ?_⟩
  intro held hh
  simp [hh]

/-- C9 witness: a character holding one Enchanted Sword accepts a second
Enchanted Sword, appended with its unique passive deactivated. -/
theorem C9_duplicate_unique_passive_witness :
    ∃ c', Character.add_item
        { Character.mk0 .ninja {} with
          items := [{ kind := .enchantedSword, base_item_stats := {} }] }
        { kind := .enchantedSword, base_item_stats := {} } = .ok c' ∧
      c'.items = [{ kind := .enchantedSword, base_item_stats := {} }] ++
        [{ kind := ItemKind.enchantedSword, base_item_stats := {}, is_passive_active := false }] ∧
      ∀ held ∈ [({ kind := .enchantedSword, base_item_stats := {} } : Item)], held ∈ c'.items :=
  C9_duplicate_unique_passive _ _ (by decide) (by decide) (by decide)

/-- C10: item equality is name equality alone — independent of base
stats and passive flags — and consequently `add_item`'s unique-passive
duplicate detection fires for any already-held item with the same name,
deactivating the incoming copy while keeping the held one. -/
theorem C10_item_equality_by_name :
    (∀ a b : Item, itemEq a b = true ↔ a.name = b.name) ∧
    (∀ (c : Character) (item held : Item), held ∈ c.items → item.name = held.name →
      item.has_unique_passive = true → c.items.length < N_ITEMS →
      ∃ c', c.add_item item = .ok c' ∧
        ({ item with is_passive_active := false }) ∈ c'.items ∧ held ∈ c'.items) := by
  constructor
  · intro a b
    simp [itemEq]
  · intro c item held hmem hname hu hlen
    have hany : c.items.any (fun j => itemEq item j) = true := by
      rw [List.any_eq_true]
      exact ⟨held, hmem, by simp [itemEq, hname]⟩
    refine ⟨_, add_item_dup_spec c item (Nat.ne_of_lt hlen) (by rw [hu, hany]; rfl), ?_, ?_⟩
    · simp
    · simp [hmem]

/-- Helper: `play_turn` raises when either combatant is already dead. -/
theorem play_turn_dead (y o : Character) (b : Bool) (e : RngEngine)
    (h0 : y.effective_stats.current_hp ≤ 0 ∨ o.effective_stats.current_hp ≤ 0) :
    play_turn y o b e = .error .deadCharacter := by
  simp only [play_turn, if_pos h0]

/-- Helper: the self-effect branch of `play_turn`. -/
theorem play_turn_self (y o : Character) (b : Bool) (e : RngEngine) (upd : Stats)
    (h0 : ¬(y.effective_stats.current_hp ≤ 0 ∨ o.effective_stats.current_hp ≤ 0))
    (hself : (chosen_attack (attacker_of y o b)
        (e.draw e.k (attacker_of y o b).effective_stats.special_trigger_chance)).stat_updates_to_self
      = some upd) :
    play_turn y o b e = .ok (packTurn b
      (self_updated (attacker_of y o b) upd) (defender_of y o b)
      { e with k := e.k + 1 }) := by
  simp only [play_turn, RngEngine.rng, if_neg h0, hself]

/-- Helper: the miss branch of `play_turn`. -/
theorem play_turn_miss (y o : Character) (b : Bool) (e : RngEngine) (d : Damage)
    (h0 : ¬(y.effective_stats.current_hp ≤ 0 ∨ o.effective_stats.current_hp ≤ 0))
    (hself : (chosen_attack (attacker_of y o b)
        (e.draw e.k (attacker_of y o b).effective_stats.special_trigger_chance)).stat_updates_to_self
      = none)
    (hdmg : (chosen_attack (attacker_of y o b)
        (e.draw e.k (attacker_of y o b).effective_stats.special_trigger_chance)).damage = some d)
    (hmiss : e.draw (e.k + 1)
        (calculate_miss_chance d (defender_of y o b).effective_stats) = true) :
    play_turn y o b e = .ok (packTurn b
      (attacker_of y o b) (defender_of y o b) { e with k := e.k + 2 }) := by
  simp only [play_turn, RngEngine.rng, if_neg h0, hself, hdmg, hmiss, if_true]

/-- Helper: a damaging attack with no damage payload crashes. -/
theorem play_turn_invalid (y o : Character) (b : Bool) (e : RngEngine)
    (h0 : ¬(y.effective_stats.current_hp ≤ 0 ∨ o.effective_stats.current_hp ≤ 0))
    (hself : (chosen_attack (attacker_of y o b)
        (e.draw e.k (attacker_of y o b).effective_stats.special_trigger_chance)).stat_updates_to_self
      = none)
    (hdmg : (chosen_attack (attacker_of y o b)
        (e.draw e.k (attacker_of y o b).effective_stats.special_trigger_chance)).damage = none) :
    play_turn y o b e = .error .invalidAttack := by
  simp only [play_turn, RngEngine.rng, if_neg h0, hself, hdmg]

/-- Helper: the hit branch of `play_turn` — the damaging attack was
chosen and the miss roll failed. -/
theorem play_turn_hit (y o : Character) (b : Bool) (e : RngEngine) (d : Damage)
    (h0 : ¬(y.effective_stats.current_hp ≤ 0 ∨ o.effective_stats.current_hp ≤ 0))
    (hself : (chosen_attack (attacker_of y o b)
        (e.draw e.k (attacker_of y o b).effective_stats.special_trigger_chance)).stat_updates_to_self
      = none)
    (hdmg : (chosen_attack (attacker_of y o b)
        (e.draw e.k (attacker_of y o b).effective_stats.special_trigger_chance)).damage = some d)
    (hmiss : e.draw (e.k + 1)
        (calculate_miss_chance d (defender_of y o b).effective_stats) = false) :
    play_turn y o b e = .ok (packTurn b
      (hit_attacker (attacker_of y o b) (defender_of y o b) d)
      (hit_defender (defender_of y o b) d)
      { e with k := e.k + 2 }) := by
  simp only [play_turn, RngEngine.rng, if_neg h0, hself, hdmg, hmiss, Bool.false_eq_true,
    if_false]

/-- Helper: reading the attacker back out of `packTurn`. -/
theorem packTurn_attacking (b : Bool) (a d : Character) (r : RngEngine) :
    (packTurn b a d r).attacking b = a := by
  cases b <;> rfl

/-- Helper: reading the defender back out of `packTurn`. -/
theorem packTurn_defending (b : Bool) (a d : Character) (r : RngEngine) :
    (packTurn b a d r).defending b = d := by
  cases b <;> rfl

/-- C10 witness: two Enchanted Swords with different base stats compare
equal, and the duplicate detection fires on them. -/
theorem C10_item_equality_by_name_witness :
    (∀ a b : Item, itemEq a b = true ↔ a.name = b.name) ∧
    (∀ (c : Character) (item held : Item), held ∈ c.items → item.name = held.name →
      item.has_unique_passive = true → c.items.length < N_ITEMS →
      ∃ c', c.add_item item = .ok c' ∧
        ({ item with is_passive_active := false }) ∈ c'.items ∧ held ∈ c'.items) ∧
    itemEq { kind := .enchantedSword, base_item_stats := { armor := 7 } }
      { kind := .enchantedSword, base_item_stats := {} } = true :=
  ⟨C10_item_equality_by_name.1, C10_item_equality_by_name.2, by decide⟩

end AutoArcana


namespace AutoArcana

/-- Helper: `hit_attacker` never changes the attacker's mitigated total. -/
theorem hit_attacker_mitigated (a d : Character) (dm : Damage) :
    (hit_attacker a d dm).damage_stats.damage_mitigated
      = a.damage_stats.damage_mitigated := by
  simp only [hit_attacker]
  split <;> rfl

/-- Helper: `hit_attacker` adds the raw total damage to `damage_dealt`. -/
theorem hit_attacker_dealt (a d : Character) (dm : Damage) :
    (hit_attacker a d dm).damage_stats.damage_dealt
      = a.damage_stats.damage_dealt + (dm.physical + dm.magic) := by
  simp only [hit_attacker]
  split <;> rfl

/-- Helper: `hit_attacker` increments `kills` exactly when the
defender's post-merge `current_hp` is 0. -/
theorem hit_attacker_kills (a d : Character) (dm : Damage) :
    (hit_attacker a d dm).damage_stats.kills
      = a.damage_stats.kills
        + (if (hit_defender d dm).effective_stats.current_hp = 0 then 1 else 0) := by
  simp only [hit_attacker]
  split <;> simp_all

/-- Helper: every damage payload produced by `chosen_attack` has
non-negative components when the character's powers are non-negative. -/
theorem chosen_attack_damage_nonneg (c : Character) (s : Bool) (d : Damage)
    (hpw : c.effective_stats.PowersNonneg)
    (hd : (chosen_attack c s).damage = some d) :
    0 ≤ d.physical ∧ 0 ≤ d.magic := by
  obtain ⟨hp, hm⟩ := hpw
  cases s with
  | false =>
    simp only [chosen_attack, Bool.false_eq_true, if_false, Character.basic_attack,
      Option.some.injEq] at hd
    subst hd
    exact ⟨hp, le_refl 0⟩
  | true =>
    cases hk : c.kind with
    | ninja =>
      simp only [chosen_attack, if_true, Character.special_attack, hk,
        Option.some.injEq] at hd
      subst hd
      constructor
      · have := mul_nonneg (by norm_num : (0:ℚ) ≤ 1/2) hp
        have := mul_nonneg (by norm_num : (0:ℚ) ≤ 1/2) hm
        simp only
        linarith
      · exact le_refl 0
    | mage =>
      simp only [chosen_attack, if_true, Character.special_attack, hk,
        Option.some.injEq] at hd
      subst hd
      constructor
      · exact le_refl 0
      · have := mul_nonneg (by norm_num : (0:ℚ) ≤ 5/4) hm
        simp only
        linarith
    | warrior =>
      simp only [chosen_attack, if_true, Character.special_attack, hk] at hd
      cases hd

/-- Helper: with both mitigation stats in `[0, 100]` and non-negative
damage components, raw total damage dominates the absolute pre-clamp HP
delta, so the mitigated increment is non-negative. -/
theorem mitigated_delta_nonneg (dm : Damage) (s : Stats)
    (hp : 0 ≤ dm.physical) (hm : 0 ≤ dm.magic)
    (hmr : s.MitigationInRange) :
    0 ≤ (dm.physical + dm.magic)
      - pyabs ((calculate_damage_taken dm s).current_hp) := by
  obtain ⟨ha0, ha1, hr0, hr1⟩ := hmr
  simp only [calculate_damage_taken, pyabs_eq, abs_neg]
  rw [sub_nonneg, abs_le]
  have k1 : 0 ≤ dm.physical * (1 - s.armor / 100) := mul_nonneg hp (by linarith)
  have k2 : 0 ≤ dm.magic * (1 - s.magic_resistance / 100) := mul_nonneg hm (by linarith)
  have k3 : 0 ≤ dm.physical * (s.armor / 100) := mul_nonneg hp (by linarith)
  have k4 : 0 ≤ dm.magic * (s.magic_resistance / 100) := mul_nonneg hm (by linarith)
  constructor <;> nlinarith [k1, k2, k3, k4]

end AutoArcana

namespace AutoArcana

/-- C3 amended: on a non-missed damaging action, the attacker's
`damage_dealt` and defender's `damage_taken` each grow by the raw total
damage; the defender's stats are merged with the damage-taken delta;
`damage_mitigated` grows by raw total minus the absolute value of the
pre-clamp HP delta computed by `calculate_damage_taken` (which equals
the defender's actual HP loss only when that delta is an unclamped
loss); and `kills` increments iff the defender's `current_hp` is
exactly 0 after the turn. -/
theorem C3_hit_accounting (y o : Character) (b : Bool) (e : RngEngine) (d : Damage)
    (hy : 0 < y.effective_stats.current_hp)
    (ho : 0 < o.effective_stats.current_hp)
    (hself : (chosen_attack (attacker_of y o b)
        (e.draw e.k (attacker_of y o b).effective_stats.special_trigger_chance)).stat_updates_to_self
      = none)
    (hdmg : (chosen_attack (attacker_of y o b)
        (e.draw e.k (attacker_of y o b).effective_stats.special_trigger_chance)).damage = some d)
    (hmiss : e.draw (e.k + 1)
        (calculate_miss_chance d (defender_of y o b).effective_stats) = false) :
    ∃ tr, play_turn y o b e = .ok tr ∧
      (tr.attacking b).damage_stats.damage_dealt
        = (attacker_of y o b).damage_stats.damage_dealt + (d.physical + d.magic) ∧
      (tr.defending b).damage_stats.damage_taken
        = (defender_of y o b).damage_stats.damage_taken + (d.physical + d.magic) ∧
      (tr.defending b).damage_stats.damage_mitigated
        = (defender_of y o b).damage_stats.damage_mitigated
          + ((d.physical + d.magic)
            - |(calculate_damage_taken d (defender_of y o b).effective_stats).current_hp|) ∧
      (tr.defending b).effective_stats
        = (defender_of y o b).effective_stats.add_stat_changes
            (calculate_damage_taken d (defender_of y o b).effective_stats) ∧
      (tr.attacking b).damage_stats.kills
        = (attacker_of y o b).damage_stats.kills
          + (if (tr.defending b).effective_stats.current_hp = 0 then 1 else 0) := by
  have h0 : ¬(y.effective_stats.current_hp ≤ 0 ∨ o.effective_stats.current_hp ≤ 0) := by
    push_neg
    exact ⟨hy, ho⟩
  refine ⟨_, play_turn_hit y o b e d h0 hself hdmg hmiss, ?_, ?_, ?_, ?_, ?_⟩
  · rw [packTurn_attacking]
    exact hit_attacker_dealt _ _ _
  · rw [packTurn_defending]
    rfl
  · rw [packTurn_defending, ← pyabs_eq]
    rfl
  · rw [packTurn_defending]
    rfl
  · rw [packTurn_attacking, packTurn_defending]
    exact hit_attacker_kills _ _ _

attribute [local semireducible] Rat.add Rat.mul Rat.sub Rat.inv in
/-- C3 witness: a 7-power basic attack hits a full-health defender; all
five accounting equations hold at this concrete input. -/
theorem C3_hit_accounting_witness :
    ∃ tr, play_turn (mkNinja 50 50 7 0) (mkNinja 40 40 0 0) true (allFalseRng 0) = .ok tr ∧
      (tr.attacking true).damage_stats.damage_dealt = 0 + (7 + 0) ∧
      (tr.defending true).damage_stats.damage_taken = 0 + (7 + 0) ∧
      (tr.defending true).damage_stats.damage_mitigated
        = 0 + ((7 + 0)
          - |(calculate_damage_taken { physical := 7 }
                (mkNinja 40 40 0 0).effective_stats).current_hp|) ∧
      (tr.defending true).effective_stats
        = (mkNinja 40 40 0 0).effective_stats.add_stat_changes
            (calculate_damage_taken { physical := 7 } (mkNinja 40 40 0 0).effective_stats) ∧
      (tr.attacking true).damage_stats.kills
        = 0 + (if (tr.defending true).effective_stats.current_hp = 0 then 1 else 0) :=
  C3_hit_accounting (mkNinja 50 50 7 0) (mkNinja 40 40 0 0) true (allFalseRng 0)
    { physical := 7 } (by decide) (by decide) rfl rfl rfl

attribute [local semireducible] Rat.add Rat.mul Rat.sub Rat.inv in
/-- C3 counterexample: a 100-damage basic attack overkills a defender at
10/100 HP.  The defender's actual HP loss is 10 (10 → 0), so the claim
predicts `damage_mitigated` grows by 100 − 10 = 90, but the source adds
`total_damage - abs(hp_update.current_hp)` = 100 − 100 = 0. -/
theorem C3_counterexample :
    ∃ tr, play_turn (mkNinja 50 50 100 0) (mkNinja 10 100 0 0) true (allFalseRng 0)
        = .ok tr ∧
      tr.opponent.effective_stats.current_hp = 0 ∧
      (mkNinja 10 100 0 0).effective_stats.current_hp
        - tr.opponent.effective_stats.current_hp = 10 ∧
      tr.opponent.damage_stats.damage_mitigated = 0 ∧
      (mkNinja 10 100 0 0).damage_stats.damage_mitigated
        + ((100 + 0) - ((mkNinja 10 100 0 0).effective_stats.current_hp
            - tr.opponent.effective_stats.current_hp)) = 90 ∧
      tr.opponent.damage_stats.damage_mitigated ≠
        (mkNinja 10 100 0 0).damage_stats.damage_mitigated
          + ((100 + 0) - ((mkNinja 10 100 0 0).effective_stats.current_hp
              - tr.opponent.effective_stats.current_hp)) := by
  refine ⟨_, rfl, ?_, ?_, ?_, ?_, ?_⟩ <;> decide

/-- C4 amended: `damage_mitigated` stays non-negative through any
`play_turn` provided both characters' attack powers are non-negative
and both characters' armor and magic resistance lie in `[0, 100]`;
above 100 the mitigated increment can be negative. -/
theorem C4_mitigated_nonneg (y o : Character) (b : Bool) (e : RngEngine) (tr : TurnResult)
    (hym : 0 ≤ y.damage_stats.damage_mitigated)
    (hom : 0 ≤ o.damage_stats.damage_mitigated)
    (hyp : y.effective_stats.PowersNonneg)
    (hop : o.effective_stats.PowersNonneg)
    (hymr : y.effective_stats.MitigationInRange)
    (homr : o.effective_stats.MitigationInRange)
    (hres : play_turn y o b e = .ok tr) :
    0 ≤ tr.your.damage_stats.damage_mitigated ∧
    0 ≤ tr.opponent.damage_stats.damage_mitigated := by
  by_cases h0 : (y.effective_stats.current_hp ≤ 0 ∨ o.effective_stats.current_hp ≤ 0)
  · rw [play_turn_dead y o b e h0] at hres
    cases hres
  · cases hsu : (chosen_attack (attacker_of y o b)
        (e.draw e.k (attacker_of y o b).effective_stats.special_trigger_chance)).stat_updates_to_self with
    | some upd =>
      rw [play_turn_self y o b e upd h0 hsu] at hres
      cases hres
      cases b <;> exact ⟨hym, hom⟩
    | none =>
      cases hdm : (chosen_attack (attacker_of y o b)
          (e.draw e.k (attacker_of y o b).effective_stats.special_trigger_chance)).damage with
      | none =>
        rw [play_turn_invalid y o b e h0 hsu hdm] at hres
        cases hres
      | some d =>
        cases hms : e.draw (e.k + 1)
            (calculate_miss_chance d (defender_of y o b).effective_stats) with
        | true =>
          rw [play_turn_miss y o b e d h0 hsu hdm hms] at hres
          cases hres
          cases b <;> exact ⟨hym, hom⟩
        | false =>
          rw [play_turn_hit y o b e d h0 hsu hdm hms] at hres
          cases hres
          have hdn : 0 ≤ d.physical ∧ 0 ≤ d.magic := by
            cases b
            · exact chosen_attack_damage_nonneg _ _ _ hop hdm
            · exact chosen_attack_damage_nonneg _ _ _ hyp hdm
          have hdelta : 0 ≤ (d.physical + d.magic)
              - pyabs ((calculate_damage_taken d (defender_of y o b).effective_stats).current_hp) := by
            cases b
            · exact mitigated_delta_nonneg d _ hdn.1 hdn.2 hymr
            · exact mitigated_delta_nonneg d _ hdn.1 hdn.2 homr
          cases b
          · constructor
            · exact add_nonneg hym hdelta
            · show 0 ≤ (hit_attacker (attacker_of y o false) (defender_of y o false) d).damage_stats.damage_mitigated
              rw [hit_attacker_mitigated]
              exact hom
          · constructor
            · show 0 ≤ (hit_attacker (attacker_of y o true) (defender_of y o true) d).damage_stats.damage_mitigated
              rw [hit_attacker_mitigated]
              exact hym
            · exact add_nonneg hom hdelta

attribute [local semireducible] Rat.add Rat.mul Rat.sub Rat.inv in
/-- C4 witness: a concrete turn between two in-range characters leaves
both mitigated totals non-negative. -/
theorem C4_mitigated_nonneg_witness :
    ∃ tr, play_turn (mkNinja 50 50 7 20) (mkNinja 40 40 5 10) true (allFalseRng 0)
        = .ok tr ∧
      0 ≤ tr.your.damage_stats.damage_mitigated ∧
      0 ≤ tr.opponent.damage_stats.damage_mitigated :=
  ⟨_, rfl, C4_mitigated_nonneg (mkNinja 50 50 7 20) (mkNinja 40 40 5 10) true
    (allFalseRng 0) _ (by decide) (by decide) (by decide) (by decide) (by decide)
    (by decide) rfl⟩

attribute [local semireducible] Rat.add Rat.mul Rat.sub Rat.inv in
/-- C4 counterexample: a defender with armor 300 and mitigated 0 is hit
by a 100-damage basic attack; the pre-clamp delta is a 200-point heal,
so the source adds 100 − |200| = −100 and `damage_mitigated` becomes
negative. -/
theorem C4_counterexample :
    ∃ tr, play_turn (mkNinja 50 50 100 0) (mkNinja 10 100 0 300) true (allFalseRng 0)
        = .ok tr ∧
      0 ≤ (mkNinja 10 100 0 300).damage_stats.damage_mitigated ∧
      tr.opponent.damage_stats.damage_mitigated < 0 := by
  refine ⟨_, rfl, by decide, by decide⟩

end AutoArcana

namespace AutoArcana

/-- Helper: whenever the round loop exits, team lengths are preserved,
both front indices are at most their team sizes, at least one index has
reached its team size, and the returned flag is literally
`your_char_idx < opponent_char_idx` on the final state. -/
theorem play_round_go_spec : ∀ (fuel : ℕ) (s : RoundState) (w : Bool) (s' : RoundState),
    s.your_char_idx ≤ s.your_team.length →
    s.opponent_char_idx ≤ s.opponent_team.length →
    play_round_go fuel s = .ok (some (w, s')) →
    s'.your_team.length = s.your_team.length ∧
    s'.opponent_team.length = s.opponent_team.length ∧
    s'.your_char_idx ≤ s'.your_team.length ∧
    s'.opponent_char_idx ≤ s'.opponent_team.length ∧
    (s'.your_char_idx = s'.your_team.length ∨
      s'.opponent_char_idx = s'.opponent_team.length) ∧
    w = decide (s'.your_char_idx < s'.opponent_char_idx) := by
  intro fuel
  induction fuel with
  | zero =>
    intro s w s' _ _ h
    simp [play_round_go] at h
  | succ n ih =>
    intro s w s' hy ho h
    rw [play_round_go] at h
    by_cases hc : s.your_char_idx < s.your_team.length ∧
        s.opponent_char_idx < s.opponent_team.length
    · rw [dif_pos hc] at h
      simp only [] at h
      split at h
      · cases h
      · obtain ⟨l1, l2, b1, b2, ex, hw⟩ := ih _ w s'
          (by dsimp only
              rw [List.length_set]
              split
              · exact hc.1
              · exact le_of_lt hc.1)
          (by dsimp only
              rw [List.length_set]
              split
              · exact hc.2
              · exact le_of_lt hc.2) h
        rw [List.length_set] at l1
        rw [List.length_set] at l2
        exact ⟨l1, l2, b1, b2, ex, hw⟩
    · rw [dif_neg hc] at h
      simp only [Except.ok.injEq, Option.some.injEq, Prod.mk.injEq] at h
      obtain ⟨hw, hs⟩ := h
      subst hs
      rw [Decidable.not_and_iff_or_not] at hc
      refine ⟨rfl, rfl, hy, ho, ?_, hw.symm⟩
      rcases hc with hc | hc
      · exact Or.inl (Nat.le_antisymm hy (not_lt.mp hc))
      · exact Or.inr (Nat.le_antisymm ho (not_lt.mp hc))

/-- C5 amended: the round's win flag is literally the comparison
`your_char_idx < opponent_char_idx` at loop exit.  For equal-size teams
this means: win iff the opponent's front index reached the opponent's
team size while yours did not, and simultaneous exhaustion is a loss
for the initiating side.  (For unequal sizes the claim's reading fails,
see the counterexample.) -/
theorem C5_round_winner (your_team opponent_team : List Character) (first : Bool)
    (rng : RngEngine) (fuel : ℕ) (w : Bool) (s' : RoundState)
    (hres : play_round your_team opponent_team first rng fuel = .ok (some (w, s'))) :
    (w = decide (s'.your_char_idx < s'.opponent_char_idx)) ∧
    (your_team.length = opponent_team.length →
      ((w = true ↔ s'.opponent_char_idx = opponent_team.length ∧
          s'.your_char_idx < your_team.length) ∧
       (s'.your_char_idx = your_team.length ∧
          s'.opponent_char_idx = opponent_team.length → w = false))) := by
  obtain ⟨l1, l2, b1, b2, ex, hw⟩ :=
    play_round_go_spec fuel _ w s' (Nat.zero_le _) (Nat.zero_le _) hres
  dsimp only at l1 l2
  subst hw
  refine ⟨rfl, fun hlen => ⟨?_, ?_⟩⟩
  · simp only [decide_eq_true_eq]
    constructor
    · intro hlt
      omega
    · intro ⟨h1, h2⟩
      omega
  · intro ⟨h1, h2⟩
    simp only [decide_eq_false_iff_not]
    omega

attribute [local semireducible] Rat.add Rat.mul Rat.sub Rat.inv in
/-- C5 witness: a concrete equal-size (1 vs 1) round where the
initiating side kills the single opponent: the flag is true and the
characterisation holds. -/
theorem C5_round_winner_witness :
    ∃ w s', play_round [mkNinja 10 10 10 0] [mkNinja 10 10 5 0] true (allFalseRng 0) 2
        = .ok (some (w, s')) ∧
      (w = decide (s'.your_char_idx < s'.opponent_char_idx)) ∧
      ([mkNinja 10 10 10 0].length = [mkNinja 10 10 5 0].length →
        ((w = true ↔ s'.opponent_char_idx = [mkNinja 10 10 5 0].length ∧
            s'.your_char_idx < [mkNinja 10 10 10 0].length) ∧
         (s'.your_char_idx = [mkNinja 10 10 10 0].length ∧
            s'.opponent_char_idx = [mkNinja 10 10 5 0].length → w = false))) :=
  ⟨_, _, rfl, C5_round_winner _ _ true (allFalseRng 0) 2 _ _ rfl⟩

attribute [local semireducible] Rat.add Rat.mul Rat.sub Rat.inv in
/-- C5 counterexample: with unequal team sizes (1 vs 3), a round can end
with the initiating side's only character dead (front index 1 = team
size) while the opponent still has a living character (front index 2 of
3) — yet the initiating side is flagged winner, because the source
returns the literal index comparison `1 < 2`.  This contradicts
"win iff the opponent's front index reached the opponent's team size
first". -/
theorem C5_counterexample :
    ∃ s', play_round [mkNinja 100 100 50 0]
        [mkNinja 50 50 10 0, mkNinja 50 50 10 0, mkNinja 200 200 80 0]
        true (allFalseRng 0) 7
      = .ok (some (true, s')) ∧
      s'.your_char_idx = 1 ∧ s'.opponent_char_idx = 2 ∧
      s'.your_team.length = 1 ∧ s'.opponent_team.length = 3 :=
  ⟨_, rfl, rfl, rfl, rfl, rfl⟩

end AutoArcana

namespace AutoArcana

/-- Helper: a hit never changes the attacker's effective stats. -/
theorem hit_attacker_eff (a d : Character) (dm : Damage) :
    (hit_attacker a d dm).effective_stats = a.effective_stats := by
  simp only [hit_attacker]
  split <;> rfl

/-- Helper: the damage-taken delta of a basic attack is the pure-HP
delta `-(lossAgainst x y)`. -/
theorem calc_dmg_basic (x y : Character) :
    calculate_damage_taken (basicDamage x) y.effective_stats
      = { current_hp := -(lossAgainst x y) } := by
  simp only [calculate_damage_taken, basicDamage, lossAgainst, Stats.mk.injEq, and_true]
  ring

/-- Helper: merging a non-positive pure-HP delta into normalized stats
only lowers `current_hp`, clamped at 0. -/
theorem add_hp_delta (s : Stats) (v : ℚ) (hs : s.Normalized) (hv : v ≤ 0) :
    s.add_stat_changes { current_hp := v }
      = { s with current_hp := max 0 (s.current_hp + v) } := by
  obtain ⟨c, t, a, m, p, g, sp⟩ := s
  obtain ⟨h1, h2, h3, h4, h5, h6, h7, h8⟩ := hs
  simp only [Stats.add_stat_changes, pymax_eq, pymin_eq, add_zero, Stats.mk.injEq] at *
  refine ⟨?_, max_eq_right (h1.trans h2), max_eq_right h3, max_eq_right h4,
    max_eq_right h5, max_eq_right h6, ?_⟩
  · rw [max_eq_right (h1.trans h2)]
    exact min_eq_right (max_le (h1.trans h2) (by linarith))
  · rw [max_eq_right h7]
    exact min_eq_right h8

/-- Helper: a basic hit on a normalized defender only lowers its
`current_hp` by `lossAgainst`, clamped at 0. -/
theorem hit_defender_basic_eff (x y : Character) (hy : y.effective_stats.Normalized)
    (h0 : 0 ≤ lossAgainst x y) :
    (hit_defender y (basicDamage x)).effective_stats
      = { y.effective_stats with
          current_hp := max 0 (y.effective_stats.current_hp - lossAgainst x y) } := by
  show y.effective_stats.add_stat_changes
      (calculate_damage_taken (basicDamage x) y.effective_stats) = _
  rw [calc_dmg_basic, add_hp_delta _ _ hy (by linarith), ← sub_eq_add_neg]

/-- Helper: positive power against armor below 100 deals positive
damage. -/
theorem lossAgainst_pos (x y : Character)
    (hpp : 0 < x.effective_stats.physical_power)
    (ha0 : 0 ≤ y.effective_stats.armor)
    (ha1 : y.effective_stats.armor < 100) :
    0 < lossAgainst x y := by
  have h : lossAgainst x y
      = x.effective_stats.physical_power * (1 - y.effective_stats.armor / 100) := by
    rw [lossAgainst]; ring
  rw [h]
  exact mul_pos hpp (by linarith)

/-- Helper: once either front index has reached its team size, one more
unit of fuel makes the round loop exit with the index comparison. -/
theorem round_exit (m : ℕ) (s : RoundState)
    (h : ¬(s.your_char_idx < s.your_team.length ∧
        s.opponent_char_idx < s.opponent_team.length)) :
    play_round_go (m + 1) s
      = .ok (some (decide (s.your_char_idx < s.opponent_char_idx), s)) := by
  rw [play_round_go, dif_neg h]

/-- Helper: one turn of the 1v1 loop with the initiating side attacking
under the all-false RNG: a basic attack hits, and the opponent's index
advances exactly when the opponent drops to 0 HP. -/
theorem round_1v1_step_true (x y : Character) (n k : ℕ)
    (hx : 0 < x.effective_stats.current_hp) (hy : 0 < y.effective_stats.current_hp) :
    play_round_go (n + 1) (st1v1 x y true k) =
      play_round_go n
        { your_team := [hit_attacker x y (basicDamage x)]
          opponent_team := [hit_defender y (basicDamage x)]
          your_char_idx := 0
          opponent_char_idx :=
            if (hit_defender y (basicDamage x)).effective_stats.current_hp ≤ 0 then 1 else 0
          is_your_turn := false
          rng := allFalseRng (k + 2) } := by
  have h0 : ¬(x.effective_stats.current_hp ≤ 0 ∨ y.effective_stats.current_hp ≤ 0) := by
    push_neg
    exact ⟨hx, hy⟩
  have hpt := play_turn_hit x y true (allFalseRng k) (basicDamage x) h0 rfl rfl rfl
  rw [play_round_go]
  dsimp only [st1v1, List.get, List.length]
  rw [dif_pos (by simp)]
  rw [hpt]
  simp only [packTurn, attacker_of, defender_of, eq_self_iff_true, if_true, hit_attacker_eff]
  rw [if_neg (not_le.mpr hx)]
  rfl

/-- Helper: one turn of the 1v1 loop with the opponent side attacking
under the all-false RNG. -/
theorem round_1v1_step_false (x y : Character) (n k : ℕ)
    (hx : 0 < x.effective_stats.current_hp) (hy : 0 < y.effective_stats.current_hp) :
    play_round_go (n + 1) (st1v1 x y false k) =
      play_round_go n
        { your_team := [hit_defender x (basicDamage y)]
          opponent_team := [hit_attacker y x (basicDamage y)]
          your_char_idx :=
            if (hit_defender x (basicDamage y)).effective_stats.current_hp ≤ 0 then 1 else 0
          opponent_char_idx := 0
          is_your_turn := true
          rng := allFalseRng (k + 2) } := by
  have h0 : ¬(x.effective_stats.current_hp ≤ 0 ∨ y.effective_stats.current_hp ≤ 0) := by
    push_neg
    exact ⟨hx, hy⟩
  have hpt := play_turn_hit x y false (allFalseRng k) (basicDamage y) h0 rfl rfl rfl
  rw [play_round_go]
  dsimp only [st1v1, List.get, List.length]
  rw [dif_pos (by simp)]
  rw [hpt]
  simp only [packTurn, attacker_of, defender_of, Bool.false_eq_true, if_false,
    hit_attacker_eff]
  rw [if_neg (not_le.mpr hy)]
  rfl

end AutoArcana

namespace AutoArcana

/-- Helper: replacing `current_hp` by an in-range value preserves
normalization. -/
theorem normalized_hp_update (s : Stats) (v : ℚ) (hs : s.Normalized)
    (h0 : 0 ≤ v) (ht : v ≤ s.total_hp) :
    ({ s with current_hp := v } : Stats).Normalized := by
  obtain ⟨h1, h2, h3, h4, h5, h6, h7, h8⟩ := hs
  exact ⟨h0, ht, h3, h4, h5, h6, h7, h8⟩

/-- Helper: a surviving defender's effective stats after a basic hit:
`current_hp` drops by exactly `lossAgainst`. -/
theorem hit_defender_eff_of_surv (x y : Character) (hy : y.effective_stats.Normalized)
    (hd0 : 0 ≤ lossAgainst x y)
    (h : 0 ≤ y.effective_stats.current_hp - lossAgainst x y) :
    (hit_defender y (basicDamage x)).effective_stats
      = { y.effective_stats with
          current_hp := y.effective_stats.current_hp - lossAgainst x y } := by
  rw [hit_defender_basic_eff x y hy hd0, max_eq_right h]

/-- Helper: a killing blow by the initiating side ends the round two
fuel later with the initiating side flagged winner and the opponent at
exactly 0 HP. -/
theorem round_true_kills (x y : Character) (k : ℕ)
    (hyN : y.effective_stats.Normalized)
    (hx0 : 0 < x.effective_stats.current_hp)
    (hy0 : 0 < y.effective_stats.current_hp)
    (hd : 0 < lossAgainst x y)
    (hkill : y.effective_stats.current_hp - lossAgainst x y ≤ 0) :
    ∃ s', play_round_go 2 (st1v1 x y true k) = .ok (some (true, s')) ∧
      Round1v1Out true s' := by
  have hc : (hit_defender y (basicDamage x)).effective_stats.current_hp ≤ 0 := by
    rw [hit_defender_basic_eff x y hyN (le_of_lt hd)]
    exact max_le le_rfl hkill
  refine ⟨{ your_team := [hit_attacker x y (basicDamage x)]
            opponent_team := [hit_defender y (basicDamage x)]
            your_char_idx := 0
            opponent_char_idx := 1
            is_your_turn := false
            rng := allFalseRng (k + 2) }, ?_, ?_⟩
  · rw [round_1v1_step_true x y 1 k hx0 hy0, if_pos hc, round_exit 0 _ (by simp)]
    rfl
  · refine ⟨hit_attacker x y (basicDamage x), hit_defender y (basicDamage x),
      rfl, rfl, Or.inl ⟨rfl, rfl, rfl, ?_, ?_⟩⟩
    · rw [hit_attacker_eff]
      exact hx0
    · rw [hit_defender_basic_eff x y hyN (le_of_lt hd)]
      exact max_eq_left hkill

/-- Helper: a killing blow by the opponent side ends the round two fuel
later with the initiating side flagged loser and its character at
exactly 0 HP. -/
theorem round_false_kills (x y : Character) (k : ℕ)
    (hxN : x.effective_stats.Normalized)
    (hx0 : 0 < x.effective_stats.current_hp)
    (hy0 : 0 < y.effective_stats.current_hp)
    (hd : 0 < lossAgainst y x)
    (hkill : x.effective_stats.current_hp - lossAgainst y x ≤ 0) :
    ∃ s', play_round_go 2 (st1v1 x y false k) = .ok (some (false, s')) ∧
      Round1v1Out false s' := by
  have hc : (hit_defender x (basicDamage y)).effective_stats.current_hp ≤ 0 := by
    rw [hit_defender_basic_eff y x hxN (le_of_lt hd)]
    exact max_le le_rfl hkill
  refine ⟨{ your_team := [hit_defender x (basicDamage y)]
            opponent_team := [hit_attacker y x (basicDamage y)]
            your_char_idx := 1
            opponent_char_idx := 0
            is_your_turn := true
            rng := allFalseRng (k + 2) }, ?_, ?_⟩
  · rw [round_1v1_step_false x y 1 k hx0 hy0, if_pos hc, round_exit 0 _ (by simp)]
    rfl
  · refine ⟨hit_defender x (basicDamage y), hit_attacker y x (basicDamage y),
      rfl, rfl, Or.inr ⟨rfl, rfl, rfl, ?_, ?_⟩⟩
    · rw [hit_attacker_eff]
      exact hy0
    · rw [hit_defender_basic_eff y x hxN (le_of_lt hd)]
      exact max_eq_left hkill

/-- Helper: a non-killing blow by the initiating side hands the loop to
the opponent with the two updated characters. -/
theorem round_true_cont (x y : Character) (n k : ℕ)
    (hyN : y.effective_stats.Normalized)
    (hx0 : 0 < x.effective_stats.current_hp)
    (hy0 : 0 < y.effective_stats.current_hp)
    (hd : 0 < lossAgainst x y)
    (hsurv : 0 < y.effective_stats.current_hp - lossAgainst x y) :
    play_round_go (n + 1) (st1v1 x y true k)
      = play_round_go n
          (st1v1 (hit_attacker x y (basicDamage x)) (hit_defender y (basicDamage x))
            false (k + 2)) := by
  have hc : 0 < (hit_defender y (basicDamage x)).effective_stats.current_hp := by
    rw [hit_defender_basic_eff x y hyN (le_of_lt hd)]
    exact lt_of_lt_of_le hsurv (le_max_right 0 _)
  rw [round_1v1_step_true x y n k hx0 hy0, if_neg (not_le.mpr hc)]
  rfl

/-- Helper: a non-killing blow by the opponent side hands the loop back
to the initiating side with the two updated characters. -/
theorem round_false_cont (x y : Character) (n k : ℕ)
    (hxN : x.effective_stats.Normalized)
    (hx0 : 0 < x.effective_stats.current_hp)
    (hy0 : 0 < y.effective_stats.current_hp)
    (hd : 0 < lossAgainst y x)
    (hsurv : 0 < x.effective_stats.current_hp - lossAgainst y x) :
    play_round_go (n + 1) (st1v1 x y false k)
      = play_round_go n
          (st1v1 (hit_defender x (basicDamage y)) (hit_attacker y x (basicDamage y))
            true (k + 2)) := by
  have hc : 0 < (hit_defender x (basicDamage y)).effective_stats.current_hp := by
    rw [hit_defender_basic_eff y x hxN (le_of_lt hd)]
    exact lt_of_lt_of_le hsurv (le_max_right 0 _)
  rw [round_1v1_step_false x y n k hx0 hy0, if_neg (not_le.mpr hc)]
  rfl

end AutoArcana

namespace AutoArcana

/-- Helper: the 1v1 round loop with the initiating side moving first
terminates with the survivor's side flagged winner, by induction on a
common bound `n` on the number of hits each side can absorb. -/
theorem round_1v1_true_fuel : ∀ (n : ℕ) (x y : Character) (k : ℕ),
    x.effective_stats.Normalized → y.effective_stats.Normalized →
    0 < x.effective_stats.current_hp → 0 < y.effective_stats.current_hp →
    0 < x.effective_stats.physical_power → 0 < y.effective_stats.physical_power →
    x.effective_stats.armor < 100 → y.effective_stats.armor < 100 →
    x.effective_stats.current_hp ≤ (n : ℚ) * lossAgainst y x →
    y.effective_stats.current_hp ≤ (n : ℚ) * lossAgainst x y →
    ∃ fuel w s', play_round_go fuel (st1v1 x y true k) = .ok (some (w, s')) ∧
      Round1v1Out w s' := by
  intro n
  induction n with
  | zero =>
    intro x y k _ _ hx0 _ _ _ _ _ hbx _
    rw [Nat.cast_zero, zero_mul] at hbx
    exact absurd hbx (not_le.mpr hx0)
  | succ n ih =>
    intro x y k hxN hyN hx0 hy0 hxp hyp hxa hya hbx hby
    have hdxy : 0 < lossAgainst x y := lossAgainst_pos x y hxp hyN.2.2.1 hya
    have hdyx : 0 < lossAgainst y x := lossAgainst_pos y x hyp hxN.2.2.1 hxa
    by_cases hkill1 : y.effective_stats.current_hp - lossAgainst x y ≤ 0
    · obtain ⟨s', he, ho⟩ := round_true_kills x y k hyN hx0 hy0 hdxy hkill1
      exact ⟨2, true, s', he, ho⟩
    · push_neg at hkill1
      have hx1eff := hit_attacker_eff x y (basicDamage x)
      have hy1eff := hit_defender_eff_of_surv x y hyN (le_of_lt hdxy) (le_of_lt hkill1)
      have hl2 : lossAgainst (hit_defender y (basicDamage x)) (hit_attacker x y (basicDamage x))
          = lossAgainst y x := by
        rw [lossAgainst, lossAgainst, hx1eff, hy1eff]
      have hx1N : (hit_attacker x y (basicDamage x)).effective_stats.Normalized := by
        rw [hx1eff]
        exact hxN
      have hy1N : (hit_defender y (basicDamage x)).effective_stats.Normalized := by
        rw [hy1eff]
        refine normalized_hp_update _ _ hyN (le_of_lt hkill1) ?_
        have h1 := hyN.2.1
        linarith
      have hx10 : 0 < (hit_attacker x y (basicDamage x)).effective_stats.current_hp := by
        rw [hx1eff]
        exact hx0
      have hy10 : 0 < (hit_defender y (basicDamage x)).effective_stats.current_hp := by
        rw [hy1eff]
        exact hkill1
      by_cases hkill2 : (hit_attacker x y (basicDamage x)).effective_stats.current_hp
          - lossAgainst (hit_defender y (basicDamage x)) (hit_attacker x y (basicDamage x)) ≤ 0
      · obtain ⟨s', he, ho⟩ := round_false_kills
          (hit_attacker x y (basicDamage x)) (hit_defender y (basicDamage x)) (k + 2)
          hx1N hx10 hy10 (by rw [hl2]; exact hdyx) hkill2
        refine ⟨3, false, s', ?_, ho⟩
        rw [round_true_cont x y 2 k hyN hx0 hy0 hdxy hkill1]
        exact he
      · push_neg at hkill2
        have hx2eff := hit_defender_eff_of_surv
          (hit_defender y (basicDamage x)) (hit_attacker x y (basicDamage x))
          hx1N (by rw [hl2]; exact le_of_lt hdyx) (le_of_lt hkill2)
        have hy2eff := hit_attacker_eff
          (hit_defender y (basicDamage x)) (hit_attacker x y (basicDamage x))
          (basicDamage (hit_defender y (basicDamage x)))
        have hl4 : lossAgainst
            (hit_attacker (hit_defender y (basicDamage x)) (hit_attacker x y (basicDamage x))
              (basicDamage (hit_defender y (basicDamage x))))
            (hit_defender (hit_attacker x y (basicDamage x))
              (basicDamage (hit_defender y (basicDamage x))))
            = lossAgainst y x := by
          rw [lossAgainst, lossAgainst, hy2eff, hx2eff, hy1eff, hx1eff]
        have hl5 : lossAgainst
            (hit_defender (hit_attacker x y (basicDamage x))
              (basicDamage (hit_defender y (basicDamage x))))
            (hit_attacker (hit_defender y (basicDamage x)) (hit_attacker x y (basicDamage x))
              (basicDamage (hit_defender y (basicDamage x))))
            = lossAgainst x y := by
          rw [lossAgainst, lossAgainst, hy2eff, hx2eff, hy1eff, hx1eff]
        have hhp2 : (hit_defender (hit_attacker x y (basicDamage x))
            (basicDamage (hit_defender y (basicDamage x)))).effective_stats.current_hp
            = x.effective_stats.current_hp - lossAgainst y x := by
          rw [hx2eff, hx1eff, hl2]
        have hhpy2 : (hit_attacker (hit_defender y (basicDamage x))
            (hit_attacker x y (basicDamage x))
            (basicDamage (hit_defender y (basicDamage x)))).effective_stats.current_hp
            = y.effective_stats.current_hp - lossAgainst x y := by
          rw [hy2eff, hy1eff]
        have hx2N : (hit_defender (hit_attacker x y (basicDamage x))
            (basicDamage (hit_defender y (basicDamage x)))).effective_stats.Normalized := by
          rw [hx2eff]
          refine normalized_hp_update _ _ hx1N (le_of_lt hkill2) ?_
          have h1 := hx1N.2.1
          have h2 : 0 < lossAgainst (hit_defender y (basicDamage x))
              (hit_attacker x y (basicDamage x)) := by
            rw [hl2]
            exact hdyx
          linarith
        have hy2N : (hit_attacker (hit_defender y (basicDamage x))
            (hit_attacker x y (basicDamage x))
            (basicDamage (hit_defender y (basicDamage x)))).effective_stats.Normalized := by
          rw [hy2eff]
          exact hy1N
        have hx20 : 0 < (hit_defender (hit_attacker x y (basicDamage x))
            (basicDamage (hit_defender y (basicDamage x)))).effective_stats.current_hp := by
          rw [hx2eff]
          exact hkill2
        have hy20 : 0 < (hit_attacker (hit_defender y (basicDamage x))
            (hit_attacker x y (basicDamage x))
            (basicDamage (hit_defender y (basicDamage x)))).effective_stats.current_hp := by
          rw [hy2eff]
          exact hy10
        have hx2p : 0 < (hit_defender (hit_attacker x y (basicDamage x))
            (basicDamage (hit_defender y (basicDamage x)))).effective_stats.physical_power := by
          rw [hx2eff, hx1eff]
          exact hxp
        have hy2p : 0 < (hit_attacker (hit_defender y (basicDamage x))
            (hit_attacker x y (basicDamage x))
            (basicDamage (hit_defender y (basicDamage x)))).effective_stats.physical_power := by
          rw [hy2eff, hy1eff]
          exact hyp
        have hx2a : (hit_defender (hit_attacker x y (basicDamage x))
            (basicDamage (hit_defender y (basicDamage x)))).effective_stats.armor < 100 := by
          rw [hx2eff, hx1eff]
          exact hxa
        have hy2a : (hit_attacker (hit_defender y (basicDamage x))
            (hit_attacker x y (basicDamage x))
            (basicDamage (hit_defender y (basicDamage x)))).effective_stats.armor < 100 := by
          rw [hy2eff, hy1eff]
          exact hya
        have hbx2 : (hit_defender (hit_attacker x y (basicDamage x))
            (basicDamage (hit_defender y (basicDamage x)))).effective_stats.current_hp
            ≤ (n : ℚ) * lossAgainst
              (hit_attacker (hit_defender y (basicDamage x)) (hit_attacker x y (basicDamage x))
                (basicDamage (hit_defender y (basicDamage x))))
              (hit_defender (hit_attacker x y (basicDamage x))
                (basicDamage (hit_defender y (basicDamage x)))) := by
          rw [hhp2, hl4]
          push_cast at hbx
          linarith
        have hby2 : (hit_attacker (hit_defender y (basicDamage x))
            (hit_attacker x y (basicDamage x))
            (basicDamage (hit_defender y (basicDamage x)))).effective_stats.current_hp
            ≤ (n : ℚ) * lossAgainst
              (hit_defender (hit_attacker x y (basicDamage x))
                (basicDamage (hit_defender y (basicDamage x))))
              (hit_attacker (hit_defender y (basicDamage x)) (hit_attacker x y (basicDamage x))
                (basicDamage (hit_defender y (basicDamage x)))) := by
          rw [hhpy2, hl5]
          push_cast at hby
          linarith
        obtain ⟨fuel, w, s', he, ho⟩ := ih
          (hit_defender (hit_attacker x y (basicDamage x))
            (basicDamage (hit_defender y (basicDamage x))))
          (hit_attacker (hit_defender y (basicDamage x)) (hit_attacker x y (basicDamage x))
            (basicDamage (hit_defender y (basicDamage x))))
          (k + 4) hx2N hy2N hx20 hy20 hx2p hy2p hx2a hy2a hbx2 hby2
        refine ⟨fuel + 2, w, s', ?_, ho⟩
        rw [round_true_cont x y (fuel + 1) k hyN hx0 hy0 hdxy hkill1]
        rw [round_false_cont (hit_attacker x y (basicDamage x))
          (hit_defender y (basicDamage x)) fuel (k + 2) hx1N hx10 hy10
          (by rw [hl2]; exact hdyx) hkill2]
        exact he

end AutoArcana

namespace AutoArcana

/-- Helper: a common hit-count bound exists for any two HP totals and
positive per-hit losses. -/
theorem exists_hit_bound (a b da db : ℚ) (hda : 0 < da) (hdb : 0 < db) :
    ∃ n : ℕ, a ≤ (n : ℚ) * da ∧ b ≤ (n : ℚ) * db := by
  obtain ⟨na, hna⟩ := exists_nat_ge (a / da)
  obtain ⟨nb, hnb⟩ := exists_nat_ge (b / db)
  refine ⟨max na nb, ?_, ?_⟩
  · have h1 : a / da ≤ ((max na nb : ℕ) : ℚ) :=
      le_trans hna (by exact_mod_cast le_max_left na nb)
    calc a = (a / da) * da := by field_simp
    _ ≤ ((max na nb : ℕ) : ℚ) * da := mul_le_mul_of_nonneg_right h1 (le_of_lt hda)
  · have h1 : b / db ≤ ((max na nb : ℕ) : ℚ) :=
      le_trans hnb (by exact_mod_cast le_max_right na nb)
    calc b = (b / db) * db := by field_simp
    _ ≤ ((max na nb : ℕ) : ℚ) * db := mul_le_mul_of_nonneg_right h1 (le_of_lt hdb)

/-- C2 amended: the round loop of `play_round` need not terminate (see
the zero-damage counterexample); it does terminate whenever every turn
makes progress.  In particular a round between two one-character teams
under the all-false RNG (every hit lands, no specials) with normalized
stats, positive current HP, positive physical power and armor below
100 on both sides terminates in finitely many turns with the
survivor's side flagged winner. -/
theorem C2_round_1v1_terminates (x y : Character) (first : Bool) (k : ℕ)
    (hxN : x.effective_stats.Normalized) (hyN : y.effective_stats.Normalized)
    (hx0 : 0 < x.effective_stats.current_hp) (hy0 : 0 < y.effective_stats.current_hp)
    (hxp : 0 < x.effective_stats.physical_power)
    (hyp : 0 < y.effective_stats.physical_power)
    (hxa : x.effective_stats.armor < 100) (hya : y.effective_stats.armor < 100) :
    ∃ fuel w s', play_round [x] [y] first (allFalseRng k) fuel = .ok (some (w, s')) ∧
      Round1v1Out w s' := by
  have hdxy : 0 < lossAgainst x y := lossAgainst_pos x y hxp hyN.2.2.1 hya
  have hdyx : 0 < lossAgainst y x := lossAgainst_pos y x hyp hxN.2.2.1 hxa
  cases first with
  | true =>
    obtain ⟨n, hn1, hn2⟩ := exists_hit_bound x.effective_stats.current_hp
      y.effective_stats.current_hp (lossAgainst y x) (lossAgainst x y) hdyx hdxy
    obtain ⟨fuel, w, s', he, ho⟩ :=
      round_1v1_true_fuel n x y k hxN hyN hx0 hy0 hxp hyp hxa hya hn1 hn2
    exact ⟨fuel, w, s', he, ho⟩
  | false =>
    by_cases hkill : x.effective_stats.current_hp - lossAgainst y x ≤ 0
    · obtain ⟨s', he, ho⟩ := round_false_kills x y k hxN hx0 hy0 hdyx hkill
      exact ⟨2, false, s', he, ho⟩
    · push_neg at hkill
      have hx1eff := hit_defender_eff_of_surv y x hxN (le_of_lt hdyx) (le_of_lt hkill)
      have hy1eff := hit_attacker_eff y x (basicDamage y)
      have hl2 : lossAgainst (hit_attacker y x (basicDamage y))
          (hit_defender x (basicDamage y)) = lossAgainst y x := by
        rw [lossAgainst, lossAgainst, hy1eff, hx1eff]
      have hl3 : lossAgainst (hit_defender x (basicDamage y))
          (hit_attacker y x (basicDamage y)) = lossAgainst x y := by
        rw [lossAgainst, lossAgainst, hy1eff, hx1eff]
      have hx1N : (hit_defender x (basicDamage y)).effective_stats.Normalized := by
        rw [hx1eff]
        refine normalized_hp_update _ _ hxN (le_of_lt hkill) ?_
        have h1 := hxN.2.1
        linarith
      have hy1N : (hit_attacker y x (basicDamage y)).effective_stats.Normalized := by
        rw [hy1eff]
        exact hyN
      have hx10 : 0 < (hit_defender x (basicDamage y)).effective_stats.current_hp := by
        rw [hx1eff]
        exact hkill
      have hy10 : 0 < (hit_attacker y x (basicDamage y)).effective_stats.current_hp := by
        rw [hy1eff]
        exact hy0
      have hx1p : 0 < (hit_defender x (basicDamage y)).effective_stats.physical_power := by
        rw [hx1eff]
        exact hxp
      have hy1p : 0 < (hit_attacker y x (basicDamage y)).effective_stats.physical_power := by
        rw [hy1eff]
        exact hyp
      have hx1a : (hit_defender x (basicDamage y)).effective_stats.armor < 100 := by
        rw [hx1eff]
        exact hxa
      have hy1a : (hit_attacker y x (basicDamage y)).effective_stats.armor < 100 := by
        rw [hy1eff]
        exact hya
      obtain ⟨n, hn1, hn2⟩ := exists_hit_bound
        (hit_defender x (basicDamage y)).effective_stats.current_hp
        (hit_attacker y x (basicDamage y)).effective_stats.current_hp
        (lossAgainst (hit_attacker y x (basicDamage y)) (hit_defender x (basicDamage y)))
        (lossAgainst (hit_defender x (basicDamage y)) (hit_attacker y x (basicDamage y)))
        (by rw [hl2]; exact hdyx) (by rw [hl3]; exact hdxy)
      obtain ⟨fuel, w, s', he, ho⟩ := round_1v1_true_fuel n
        (hit_defender x (basicDamage y)) (hit_attacker y x (basicDamage y)) (k + 2)
        hx1N hy1N hx10 hy10 hx1p hy1p hx1a hy1a hn1 hn2
      refine ⟨fuel + 1, w, s', ?_, ho⟩
      show play_round_go (fuel + 1) (st1v1 x y false k) = _
      rw [round_false_cont x y fuel k hxN hx0 hy0 hdyx hkill]
      exact he

/-- C2 witness: the concrete 10-power versus 5-power one-on-one round
terminates with the survivor's side flagged winner. -/
theorem C2_round_1v1_terminates_witness :
    ∃ fuel w s', play_round [mkNinja 10 10 10 0] [mkNinja 10 10 5 0] true (allFalseRng 0) fuel
        = .ok (some (w, s')) ∧ Round1v1Out w s' :=
  C2_round_1v1_terminates (mkNinja 10 10 10 0) (mkNinja 10 10 5 0) true 0
    (by decide) (by decide) (by decide) (by decide) (by decide) (by decide)
    (by decide) (by decide)

attribute [local semireducible] Rat.add Rat.mul Rat.sub Rat.inv in
/-- Helper: with two zero-power one-character teams under the all-false
RNG, every turn recreates the same position (only the turn flag and the
RNG call counter move), so no fuel makes the loop exit. -/
theorem zero_round_stuck : ∀ (n : ℕ) (b : Bool) (k : ℕ),
    play_round_go n (st1v1 (mkNinja 10 10 0 0) (mkNinja 10 10 0 0) b k) = .ok none := by
  intro n
  induction n with
  | zero =>
    intro b k
    rfl
  | succ n ih =>
    intro b k
    have h1 : hit_attacker (mkNinja 10 10 0 0) (mkNinja 10 10 0 0)
        (basicDamage (mkNinja 10 10 0 0)) = mkNinja 10 10 0 0 := by decide
    have h2 : hit_defender (mkNinja 10 10 0 0) (basicDamage (mkNinja 10 10 0 0))
        = mkNinja 10 10 0 0 := by decide
    cases b
    · rw [round_1v1_step_false _ _ n k (by decide) (by decide), h1, h2,
        if_neg (by decide : ¬((mkNinja 10 10 0 0).effective_stats.current_hp ≤ 0))]
      exact ih true (k + 2)
    · rw [round_1v1_step_true _ _ n k (by decide) (by decide), h1, h2,
        if_neg (by decide : ¬((mkNinja 10 10 0 0).effective_stats.current_hp ≤ 0))]
      exact ih false (k + 2)

attribute [local semireducible] Rat.add Rat.mul Rat.sub Rat.inv in
/-- C2 counterexample: the turn loop of `play_round` does not terminate
for every pair of non-empty teams and RNG behaviour — with two
zero-power characters every basic attack hits for 0 damage, nobody ever
falls, and the loop never exits regardless of fuel. -/
theorem C2_counterexample :
    play_round_diverges [mkNinja 10 10 0 0] [mkNinja 10 10 0 0] true (allFalseRng 0) :=
  fun fuel => zero_round_stuck fuel true 0

end AutoArcana

namespace AutoArcana

/-- C6: the claimed best-of-five behaviour is never exhibited by
`play_match` — for every round resolver and every RNG engine (and in
particular at a concrete resolver returning a won round), the two-name
unpacking of `play_round`'s 3-tuple on the first round raises
`ValueError`, so `play_match` aborts before tallying any round, never
alternates the mover, and never reports the win comparison. -/
theorem C6_play_match_raises :
    (∀ (round_results : ℕ → Bool → RngEngine → RoundReturn × RngEngine)
      (rng_engine : RngEngine),
      play_match round_results rng_engine = .error .unpackMismatch) ∧
    play_match (fun _ _ e => ((true, [], ([], [])), e)) (allFalseRng 0)
      = .error .unpackMismatch := by
  constructor
  · intro round_results rng_engine
    rfl
  · rfl

end AutoArcana
